import Mathlib

/-!
Verification of the `text_to_video` pipeline of this repository
(`src/app.py` and `src/api/app.py`; the core function `text_to_video` is
line-for-line identical in the two files apart from the up-front font
existence check and temp-file path handling, both of which are modelled).

Shallow embedding conventions:
* Python floats (durations, thresholds) are modelled as exact rationals `ℚ`.
* External collaborators (PIL image decoding, gTTS speech synthesis,
  moviepy muxing, the filesystem) are modelled at their interface boundary:
  the synthesized audio is represented by its measured total duration,
  the font resource by a flag saying whether it loads, and the muxing step
  by a flag saying whether `write_videofile` succeeds.
* Python exceptions raised by the code are modelled by an explicit error
  type; the fate of the temporary audio file `temp.mp3` is tracked as part
  of the run result so that cleanup behaviour is observable.
-/

namespace TextToVideo

/-- Accumulator-style splitter over the character list: `cur` holds the
characters of the word currently being read, in reverse.  Runs of
whitespace separate words, and leading/trailing whitespace produces no
empty words — the semantics of Python `str.split()` with no arguments,
used at `words = text.split()` (src/app.py line 33, src/api/app.py
line 39). -/
def splitWordsAux (cur : List Char) : List Char → List String
  | [] => if cur.isEmpty then [] else [String.mk cur.reverse]
  | c :: cs =>
    if c.isWhitespace then
      if cur.isEmpty then splitWordsAux [] cs
      else String.mk cur.reverse :: splitWordsAux [] cs
    else splitWordsAux (c :: cur) cs

/-- `words = text.split()` — whitespace tokenization discarding empty
segments (src/app.py line 33, src/api/app.py line 39). -/
def splitWords (text : String) : List String :=
  splitWordsAux [] text.toList

/-- The failures the pipeline can signal.  The first four model the Python
exceptions the code actually raises; the last two are modelled from the
spec: the spec's error taxonomy (§7) names `InvalidInputError` and
`ImageLoadError`, but the code defines and raises no such errors, so these
constructors exist only so that claims mentioning them can be stated. -/
inductive PyError
  /-- `FileNotFoundError` raised by the up-front font check
  (src/api/app.py lines 44-46); in src/app.py the equivalent failure is
  the `OSError` raised by `ImageFont.truetype` at line 37.  Either way it
  is the error signalling that the font resource cannot be loaded. -/
  | fileNotFoundError
  /-- `ZeroDivisionError` from `full_audio_duration / len(words)` when the
  word list is empty (src/app.py line 46, src/api/app.py line 58). -/
  | zeroDivisionError
  /-- `IndexError` from an out-of-range list subscript, e.g.
  `background_images[current_background_index]` with an empty image list
  (src/app.py line 62, src/api/app.py line 74), or `(i + 1) % 0`
  (`ZeroDivisionError` in Python) guarded separately below. -/
  | indexError
  /-- A failure of `clip.write_videofile` (src/app.py line 84,
  src/api/app.py line 96) — the muxing/output-writing failure the spec
  calls `EncodingError`. -/
  | encodingError
  /-- Modelled from the spec (§7): `InvalidInputError`.  Missing from the
  code — never raised. -/
  | invalidInputError
  /-- Modelled from the spec (§7): `ImageLoadError`.  Missing from the
  code — never raised. -/
  | imageLoadError
deriving DecidableEq

/-- The state of the background-cycling loop (spec §4.2
BackgroundScheduler): `currentIndex` is `current_background_index`,
`changeTime` is `background_change_time` (the spec's `next_threshold`),
`imageDuration` is `image_duration` (the spec's `elapsed_since_switch`).
Initialized at src/app.py lines 49-51 / src/api/app.py lines 61-63 as
`⟨0, BACKGROUND_INTERVALS[0], 0⟩`. -/
structure SchedState where
  currentIndex : Nat
  changeTime : ℚ
  imageDuration : ℚ
deriving DecidableEq

/-- The switch test at the top of the per-word loop, src/app.py lines
55-59 / src/api/app.py lines 67-71:

    if image_duration >= background_change_time:
        current_background_index = (current_background_index + 1) % len(background_images)
        if current_background_index < len(BACKGROUND_INTERVALS):
            background_change_time += BACKGROUND_INTERVALS[current_background_index]
        image_duration = 0

In Python `(i + 1) % 0` raises `ZeroDivisionError`, hence the
`imageCount = 0` guard.  Note that `background_change_time` is increased
(`+=`) by the interval value at the NEW background index, and that
`image_duration` resets to 0 on every switch. -/
def switchStep (imageCount : Nat) (intervals : List ℚ) (s : SchedState) :
    Except PyError SchedState :=
  if s.changeTime ≤ s.imageDuration then
    if imageCount = 0 then .error .zeroDivisionError
    else
      let newIndex := (s.currentIndex + 1) % imageCount
      let newChangeTime :=
        if newIndex < intervals.length then s.changeTime + intervals.getD newIndex 0
        else s.changeTime
      .ok ⟨newIndex, newChangeTime, 0⟩
  else .ok s

/-- The spec's `advance(duration)` operation (§4.2): add `duration` to the
elapsed-time tracker, then apply the switch test.  In the code the two
halves live at opposite ends of one loop iteration (`image_duration +=
avg_word_duration` at src/app.py line 77 and the switch test at lines
55-59 of the next iteration), with nothing in between that touches the
scheduler state, so composing them this way is the code's transition. -/
def advance (imageCount : Nat) (intervals : List ℚ) (d : ℚ) (s : SchedState) :
    Except PyError SchedState :=
  switchStep imageCount intervals { s with imageDuration := s.imageDuration + d }

/-- Iterates `advance` over a list of durations (one per word processed),
propagating a failure. -/
def advanceRun (imageCount : Nat) (intervals : List ℚ) :
    List ℚ → SchedState → Except PyError SchedState
  | [], s => .ok s
  | d :: ds, s =>
    match advance imageCount intervals d s with
    | .error e => .error e
    | .ok s1 => advanceRun imageCount intervals ds s1

/-- One caption frame: the word drawn over the background image at
`bgIndex`, displayed for `duration` seconds.  The pixel compositing
(PIL `Image.open/copy`, `ImageDraw.text`, `np.array`) is external; the
frame is identified by the word it shows, the background it uses and its
display duration, which is what `images.append(...)` /
`durations.append(avg_word_duration)` record in lockstep (src/app.py
lines 74-75, src/api/app.py lines 86-87). -/
structure CaptionFrame where
  word : String
  bgIndex : Nat
  duration : ℚ
deriving DecidableEq

/-- The module-level customization constants (src/app.py lines 14-19,
src/api/app.py lines 23-28).  `timingAdjustment` is `TIMING_ADJUSTMENT =
-0.3`; `backgroundIntervals` is `BACKGROUND_INTERVALS = [10, 22, 35]`. -/
structure Config where
  textSpeed : Nat
  textColor : Nat × Nat × Nat
  fontSize : Nat
  timingAdjustment : ℚ
  videoSize : Nat × Nat
  backgroundIntervals : List ℚ
deriving DecidableEq

/-- The constants exactly as the modules define them. -/
def defaultConfig : Config :=
  { textSpeed := 24
    textColor := (0, 0, 0)
    fontSize := 180
    timingAdjustment := -3 / 10
    videoSize := (1080, 1920)
    backgroundIntervals := [10, 22, 35] }

/-- The assembled video: the frame sequence with per-frame durations, the
narration audio (identified by its duration) attached by `set_audio`, at
frame rate `clip.fps = TEXT_SPEED` (src/app.py lines 79-84). -/
structure VideoOutput where
  frames : List CaptionFrame
  audioDuration : ℚ
  fps : Nat
deriving DecidableEq

/-- Equality of `Except` values is decidable when it is on both sides. -/
instance instDecEqExcept {ε α : Type} [DecidableEq ε] [DecidableEq α] :
    DecidableEq (Except ε α) := fun a b =>
  match a, b with
  | .ok x, .ok y => decidable_of_iff (x = y) (by simp)
  | .error x, .error y => decidable_of_iff (x = y) (by simp)
  | .ok _, .error _ => isFalse (by simp)
  | .error _, .ok _ => isFalse (by simp)

/-- Everything observable about one run of `text_to_video`: the returned
value or raised exception, whether `tts.save` created the temporary audio
file `temp.mp3`, whether `os.remove` deleted it again, and how many
frames had been rendered when the run ended. -/
structure RunResult where
  result : Except PyError VideoOutput
  tempCreated : Bool
  tempRemoved : Bool
  framesRendered : Nat
deriving DecidableEq

/-- The per-word loop, src/app.py lines 53-77 / src/api/app.py lines
65-89.  For each word: run the switch test (`switchStep`), look up
`background_images[current_background_index]` (an `IndexError` when the
index is out of range of the image list), record the frame and its
duration, and add `avg_word_duration` to `image_duration`.  Returns the
frames produced before any failure, paired with the failure if one
occurred. -/
def renderLoop (imageCount : Nat) (intervals : List ℚ) (avg : ℚ) :
    List String → SchedState → List CaptionFrame × Option PyError
  | [], _ => ([], none)
  | w :: ws, s =>
    match switchStep imageCount intervals s with
    | .error e => ([], some e)
    | .ok s1 =>
      if s1.currentIndex < imageCount then
        let rest := renderLoop imageCount intervals avg ws
          { s1 with imageDuration := s1.imageDuration + avg }
        (⟨w, s1.currentIndex, avg⟩ :: rest.1, rest.2)
      else ([], some .indexError)

/-- The core pipeline `text_to_video(text, font_path, background_images,
outputfile)` (src/app.py lines 32-87, src/api/app.py lines 39-101), in
the code's order:

1. `words = text.split()`;
2. font loading — `fontOk` says whether the font resource exists and
   loads (`os.path.exists` + `ImageFont.truetype`); on failure the
   function raises before anything else happens;
3. `tts.save("temp.mp3")` — the temporary audio file is created;
   `audioDuration` is the duration pydub then measures;
4. `avg_word_duration = full_audio_duration / len(words)` — raises
   `ZeroDivisionError` on an empty word list;
5. `background_change_time = BACKGROUND_INTERVALS[0]` — an `IndexError`
   if the interval list were empty;
6. the per-word loop (`renderLoop`);
7. muxing via `write_videofile` — `muxOk` says whether it succeeds;
8. `os.remove("temp.mp3")` — reached only if nothing above raised. -/
def text_to_video (cfg : Config) (fontOk : Bool) (muxOk : Bool)
    (audioDuration : ℚ) (text : String) (backgroundImages : List String) :
    RunResult :=
  let words := splitWords text
  if fontOk then
    if words.length = 0 then ⟨.error .zeroDivisionError, true, false, 0⟩
    else
      let avg := audioDuration / (words.length : ℚ)
      match cfg.backgroundIntervals with
      | [] => ⟨.error .indexError, true, false, 0⟩
      | t0 :: _ =>
        let run := renderLoop backgroundImages.length cfg.backgroundIntervals
          avg words ⟨0, t0, 0⟩
        match run.2 with
        | some e => ⟨.error e, true, false, run.1.length⟩
        | none =>
          if muxOk then
            ⟨.ok ⟨run.1, audioDuration, cfg.textSpeed⟩, true, true, run.1.length⟩
          else ⟨.error .encodingError, true, false, run.1.length⟩
  else ⟨.error .fileNotFoundError, false, false, 0⟩

end TextToVideo

namespace TextToVideo

/-- When the per-word loop finishes without a failure, the words drawn on
the frames it produced are exactly the input words, in order. -/
lemma renderLoop_snd_none_map_word (n : Nat) (ivs : List ℚ) (avg : ℚ) :
    ∀ (ws : List String) (s : SchedState),
      (renderLoop n ivs avg ws s).2 = none →
      ((renderLoop n ivs avg ws s).1).map CaptionFrame.word = ws := by
  intro ws
  induction ws with
  | nil => intro s _; simp [renderLoop]
  | cons w ws ih =>
    intro s h
    simp only [renderLoop] at h ⊢
    cases hss : switchStep n ivs s with
    | error e => simp [hss] at h
    | ok s1 =>
      simp only [hss] at h ⊢
      by_cases hlt : s1.currentIndex < n
      · simp only [if_pos hlt] at h ⊢
        simpa using ih _ h
      · simp [if_neg hlt] at h

/-- When the per-word loop finishes without a failure, every frame it
produced carries the same duration `avg` (the code appends
`avg_word_duration` for every word). -/
lemma renderLoop_snd_none_map_duration (n : Nat) (ivs : List ℚ) (avg : ℚ) :
    ∀ (ws : List String) (s : SchedState),
      (renderLoop n ivs avg ws s).2 = none →
      ((renderLoop n ivs avg ws s).1).map CaptionFrame.duration =
        ws.map (fun _ => avg) := by
  intro ws
  induction ws with
  | nil => intro s _; simp [renderLoop]
  | cons w ws ih =>
    intro s h
    simp only [renderLoop] at h ⊢
    cases hss : switchStep n ivs s with
    | error e => simp [hss] at h
    | ok s1 =>
      simp only [hss] at h ⊢
      by_cases hlt : s1.currentIndex < n
      · simp only [if_pos hlt] at h ⊢
        simpa using ih _ h
      · simp [if_neg hlt] at h

/-- Inversion of a successful run: success requires the font to have
loaded, a non-empty word list, a non-empty interval list, a loop that
finished without failure, and `muxOk`; the output is then the loop's
frames with the measured audio duration at the configured frame rate. -/
lemma text_to_video_ok_elim (cfg : Config) (fontOk muxOk : Bool) (d : ℚ)
    (text : String) (imgs : List String) (out : VideoOutput)
    (h : (text_to_video cfg fontOk muxOk d text imgs).result = .ok out) :
    ∃ t0 tl, cfg.backgroundIntervals = t0 :: tl ∧
      (splitWords text).length ≠ 0 ∧
      (renderLoop imgs.length cfg.backgroundIntervals
          (d / ((splitWords text).length : ℚ)) (splitWords text) ⟨0, t0, 0⟩).2
        = none ∧
      out = ⟨(renderLoop imgs.length cfg.backgroundIntervals
          (d / ((splitWords text).length : ℚ)) (splitWords text)
          ⟨0, t0, 0⟩).1, d, cfg.textSpeed⟩ := by
  cases fontOk with
  | false => simp [text_to_video] at h
  | true =>
    by_cases hw : (splitWords text).length = 0
    · simp [text_to_video, hw] at h
    · cases hiv : cfg.backgroundIntervals with
      | nil => simp [text_to_video, hw, hiv] at h
      | cons t0 tl =>
        refine ⟨t0, tl, rfl, hw, ?_⟩
        simp only [text_to_video, hw, if_false, if_true, hiv] at h
        cases hrun : (renderLoop imgs.length (t0 :: tl)
            (d / ((splitWords text).length : ℚ)) (splitWords text)
            ⟨0, t0, 0⟩).2 with
        | some e => rw [hrun] at h; simp at h
        | none =>
          rw [hrun] at h
          cases muxOk with
          | false => simp at h
          | true =>
            simp only [if_true] at h
            exact ⟨by simp [hrun], by simpa using h.symm⟩

/-- Sum of a constant-valued map. -/
lemma sum_map_const_eq (ws : List String) (a : ℚ) :
    (ws.map (fun _ => a)).sum = ws.length * a := by
  induction ws with
  | nil => simp
  | cons w ws ih => simp [ih]; ring

/-- Claim C8 (confirmed): with thresholds `[10, 22, 35]`, three background
images, and repeated `advance 5` steps, the active index first switches at
the advance that brings cumulative elapsed time to exactly 10 (the
comparison is `>=`, so reaching the threshold exactly triggers), and no
further switch happens until the next threshold (now 32, cumulatively
updated) is reached: after 8 advances the index is still 1 with elapsed
30, and the 9th advance (elapsed 35 ≥ 32) switches again. -/
theorem c8_first_switch_at_ten_then_next_threshold :
    advanceRun 3 [10, 22, 35] [5] ⟨0, 10, 0⟩ = .ok ⟨0, 10, 5⟩ ∧
    advanceRun 3 [10, 22, 35] [5, 5] ⟨0, 10, 0⟩ = .ok ⟨1, 32, 0⟩ ∧
    advanceRun 3 [10, 22, 35] [5, 5, 5, 5, 5, 5, 5, 5] ⟨0, 10, 0⟩ =
      .ok ⟨1, 32, 30⟩ ∧
    advanceRun 3 [10, 22, 35] [5, 5, 5, 5, 5, 5, 5, 5, 5] ⟨0, 10, 0⟩ =
      .ok ⟨2, 67, 0⟩ := by
  refine ⟨?_, ?_, ?_, ?_⟩ <;> norm_num [advanceRun, advance, switchStep]

/-- Claim C1 (counterexample): the threshold list `[10, 22, 35]` is
exhausted at the third switch (the new index 3 is out of range, so
`background_change_time` stays 67), yet a further advance of 67 switches
the index again, from 3 to 4 — the index does not stay fixed once the
threshold list runs out, because `image_duration` resets to 0 at every
switch and the stale threshold keeps triggering. -/
theorem c1_counterexample :
    advanceRun 5 [10, 22, 35] [10, 32, 67] ⟨0, 10, 0⟩ = .ok ⟨3, 67, 0⟩ ∧
    advanceRun 5 [10, 22, 35] [10, 32, 67, 67] ⟨0, 10, 0⟩ = .ok ⟨4, 67, 0⟩ ∧
    (3 : Nat) ≠ 4 := by
  refine ⟨?_, ?_, by decide⟩ <;> norm_num [advanceRun, advance, switchStep]

/-- Claim C1 (corrected): in any scheduler state — in particular one
reached after the threshold list was exhausted, i.e. whose next index
`currentIndex + 1` is out of range of the interval list — an advance that
brings the elapsed time up to the current threshold still switches the
index (it changes to `currentIndex + 1`), leaving the threshold
unchanged.  Switches do not cease when the thresholds run out; only the
threshold updates do, and only while the index stays out of range. -/
theorem c1_amended_exhaustion_still_switches (n : Nat) (ivs : List ℚ)
    (s : SchedState) (d : ℚ) (h1 : s.currentIndex + 1 < n)
    (h2 : ivs.length ≤ s.currentIndex + 1)
    (h3 : s.changeTime ≤ s.imageDuration + d) :
    advance n ivs d s = .ok ⟨s.currentIndex + 1, s.changeTime, 0⟩ ∧
      s.currentIndex + 1 ≠ s.currentIndex := by
  have hn : n ≠ 0 := by omega
  have hmod : (s.currentIndex + 1) % n = s.currentIndex + 1 :=
    Nat.mod_eq_of_lt h1
  refine ⟨?_, by omega⟩
  simp only [advance, switchStep, hmod]
  rw [if_pos h3, if_neg hn, if_neg (by omega)]

/-- Claim C1 witness: the concrete exhausted state `⟨3, 67, 0⟩` (reached
in `c1_counterexample`) with 5 images switches again after 67 more
seconds. -/
theorem c1_amended_witness :
    advance 5 [10, 22, 35] 67 ⟨3, 67, 0⟩ = .ok ⟨4, 67, 0⟩ ∧ (4 : Nat) ≠ 3 :=
  c1_amended_exhaustion_still_switches 5 [10, 22, 35] ⟨3, 67, 0⟩ 67
    (by norm_num) (by norm_num) (by norm_num)

/-- Claim C2 (counterexample): the switch does not set `next_threshold` to
the next configured value in list order.  With 3 images, the first switch
(at elapsed 10) sets the threshold to 10 + 22 = 32, not to the next
configured value 22 — the update is `background_change_time +=`, a
cumulative sum.  And with 2 images the second switch sets it to
32 + 10 = 42, not the third configured value 35 — the added interval is
indexed by the new background index `(i + 1) % len(background_images)`,
not by position in the threshold list. -/
theorem c2_counterexample :
    (advance 3 [10, 22, 35] 10 ⟨0, 10, 0⟩ = .ok ⟨1, 32, 0⟩ ∧ (32 : ℚ) ≠ 22) ∧
    (advanceRun 2 [10, 22, 35] [10, 32] ⟨0, 10, 0⟩ = .ok ⟨0, 42, 0⟩ ∧
      (42 : ℚ) ≠ 35) := by
  refine ⟨⟨?_, by norm_num⟩, ⟨?_, by norm_num⟩⟩ <;>
    norm_num [advanceRun, advance, switchStep]

/-- Claim C2 (corrected): `advance d` adds `d` to `elapsed_since_switch`;
if the result reaches `next_threshold` the scheduler switches:
`current_index` becomes `(current_index + 1) mod image_count`,
`elapsed_since_switch` resets to 0, and `next_threshold` INCREASES by the
configured interval value indexed by the NEW `current_index` (a cumulative
sum, selected by the new background index, not the next value in list
order) provided that new index is within range of the threshold list;
otherwise `next_threshold` is unchanged.  If the threshold is not reached,
only the elapsed time changes. -/
theorem c2_amended_advance_characterization (n : Nat) (ivs : List ℚ)
    (d : ℚ) (s : SchedState) (hn : 0 < n) :
    (s.changeTime ≤ s.imageDuration + d →
      advance n ivs d s = .ok ⟨(s.currentIndex + 1) % n,
        if (s.currentIndex + 1) % n < ivs.length then
          s.changeTime + ivs.getD ((s.currentIndex + 1) % n) 0
        else s.changeTime, 0⟩) ∧
    (s.imageDuration + d < s.changeTime →
      advance n ivs d s = .ok ⟨s.currentIndex, s.changeTime,
        s.imageDuration + d⟩) := by
  constructor
  · intro h
    simp only [advance, switchStep]
    rw [if_pos h, if_neg (by omega)]
  · intro h
    simp only [advance, switchStep]
    rw [if_neg (by exact not_le.mpr h)]

/-- Claim C3 (counterexample): on empty input text the pipeline does not
fail with the spec's `InvalidInputError` — it raises `ZeroDivisionError`
at `avg_word_duration = full_audio_duration / len(words)`; no
`InvalidInputError` exists anywhere in the code. -/
theorem c3_counterexample :
    (text_to_video defaultConfig true true 2 "" []).result =
        .error .zeroDivisionError ∧
      (text_to_video defaultConfig true true 2 "" []).result ≠
        .error .invalidInputError := by
  have hs : splitWords "" = [] := by decide
  constructor <;> simp [text_to_video, hs]

/-- Claim C3 (corrected): for every empty or whitespace-only input text
(word count zero), the pipeline fails at the average-duration division
with an unhandled `ZeroDivisionError` — not with a structured
`InvalidInputError`, which the code does not define — before any
per-word duration is computed or any frame rendered, and it never
produces a NaN or Infinity duration (the failure is an exception, not a
division artifact). -/
theorem c3_amended_empty_text_zero_division (cfg : Config) (muxOk : Bool)
    (d : ℚ) (text : String) (imgs : List String)
    (hempty : splitWords text = []) :
    text_to_video cfg true muxOk d text imgs =
      ⟨.error .zeroDivisionError, true, false, 0⟩ := by
  simp [text_to_video, hempty]

/-- Claim C3 witness: a whitespace-only text. -/
theorem c3_amended_witness :
    text_to_video defaultConfig true true 2 " \t " [] =
      ⟨.error .zeroDivisionError, true, false, 0⟩ :=
  c3_amended_empty_text_zero_division defaultConfig true 2 " \t " []
    (by decide)

/-- Claim C4 (confirmed): on every successful run with total narration
duration `d`, the per-word frame durations sum to `d` within the 1e-6
tolerance (in the exact-rational model the sum equals `d` on the nose,
since every one of the `n` words receives `d / n`). -/
theorem c4_sum_durations_eq_total (cfg : Config) (fontOk muxOk : Bool)
    (d : ℚ) (text : String) (imgs : List String) (out : VideoOutput)
    (hd : 0 < d) (hne : splitWords text ≠ [])
    (h : (text_to_video cfg fontOk muxOk d text imgs).result = .ok out) :
    |(out.frames.map CaptionFrame.duration).sum - d| ≤ 1 / 1000000 := by
  obtain ⟨t0, tl, hiv, hw, hrun, hout⟩ :=
    text_to_video_ok_elim cfg fontOk muxOk d text imgs out h
  subst hout
  dsimp only
  rw [renderLoop_snd_none_map_duration _ _ _ _ _ hrun, sum_map_const_eq]
  have hlen : ((splitWords text).length : ℚ) ≠ 0 := by exact_mod_cast hw
  have hcancel : ((splitWords text).length : ℚ) *
      (d / ((splitWords text).length : ℚ)) = d := by field_simp
  rw [hcancel]
  simp

/-- Claim C4 witness: a 2-word text narrated in 2 seconds gives two
frames of duration 1 each, summing to the narration duration. -/
theorem c4_witness :
    |(([⟨"hello", 0, 1⟩, ⟨"world", 0, 1⟩] : List CaptionFrame).map
        CaptionFrame.duration).sum - 2| ≤ (1 : ℚ) / 1000000 := by
  have hs : splitWords "hello world" = ["hello", "world"] := by decide
  have hok : (text_to_video defaultConfig true true 2 "hello world"
      ["bg.png"]).result = .ok ⟨[⟨"hello", 0, 1⟩, ⟨"world", 0, 1⟩], 2, 24⟩ := by
    norm_num [text_to_video, hs, defaultConfig, renderLoop, switchStep]
  exact c4_sum_durations_eq_total defaultConfig true true 2 "hello world"
    ["bg.png"] ⟨[⟨"hello", 0, 1⟩, ⟨"world", 0, 1⟩], 2, 24⟩ (by norm_num)
    (by decide) hok

/-- Claim C5 (confirmed): every successful run produces exactly one
caption frame per word, in word order — the words drawn on the frame
sequence are the word sequence itself, so the lengths agree. -/
theorem c5_one_frame_per_word (cfg : Config) (fontOk muxOk : Bool) (d : ℚ)
    (text : String) (imgs : List String) (out : VideoOutput)
    (h : (text_to_video cfg fontOk muxOk d text imgs).result = .ok out) :
    out.frames.map CaptionFrame.word = splitWords text ∧
      out.frames.length = (splitWords text).length := by
  obtain ⟨t0, tl, hiv, hw, hrun, hout⟩ :=
    text_to_video_ok_elim cfg fontOk muxOk d text imgs out h
  subst hout
  dsimp only
  have hmap := renderLoop_snd_none_map_word _ _ _ _ _ hrun
  exact ⟨hmap, by simpa using congrArg List.length hmap⟩

/-- Claim C5 witness: the concrete 2-word run has 2 frames carrying the 2
words in order. -/
theorem c5_witness :
    ([⟨"hello", 0, 1⟩, ⟨"world", 0, 1⟩] : List CaptionFrame).map
        CaptionFrame.word = splitWords "hello world" ∧
      ([⟨"hello", 0, 1⟩, ⟨"world", 0, 1⟩] : List CaptionFrame).length =
        (splitWords "hello world").length := by
  have hs : splitWords "hello world" = ["hello", "world"] := by decide
  have hok : (text_to_video defaultConfig true true 2 "hello world"
      ["bg.png"]).result = .ok ⟨[⟨"hello", 0, 1⟩, ⟨"world", 0, 1⟩], 2, 24⟩ := by
    norm_num [text_to_video, hs, defaultConfig, renderLoop, switchStep]
  exact c5_one_frame_per_word defaultConfig true true 2 "hello world"
    ["bg.png"] ⟨[⟨"hello", 0, 1⟩, ⟨"world", 0, 1⟩], 2, 24⟩ hok

/-- Claim C6 (counterexample): when muxing (`write_videofile`) fails, the
run ends in error with the temporary audio file created but never
removed — `os.remove("temp.mp3")` sits after `write_videofile` with no
try/finally, so the failure path leaks the file. -/
theorem c6_counterexample :
    (text_to_video defaultConfig true false 2 "hello" ["bg.png"]).result =
        .error .encodingError ∧
      (text_to_video defaultConfig true false 2 "hello"
        ["bg.png"]).tempCreated = true ∧
      (text_to_video defaultConfig true false 2 "hello"
        ["bg.png"]).tempRemoved = false := by
  have hs : splitWords "hello" = ["hello"] := by decide
  refine ⟨?_, ?_, ?_⟩ <;>
    norm_num [text_to_video, hs, defaultConfig, renderLoop, switchStep]

/-- Claim C6 (corrected): the temporary synthesized-audio file is removed
exactly on the success path; on every failure exit — including a failure
during muxing/output writing — the cleanup line is never reached, so the
temp file is released if and only if the whole run succeeds. -/
theorem c6_amended_temp_removed_iff_success (cfg : Config)
    (fontOk muxOk : Bool) (d : ℚ) (text : String) (imgs : List String) :
    (text_to_video cfg fontOk muxOk d text imgs).tempRemoved = true ↔
      ∃ out, (text_to_video cfg fontOk muxOk d text imgs).result =
        .ok out := by
  cases fontOk with
  | false => simp [text_to_video]
  | true =>
    by_cases hw : (splitWords text).length = 0
    · simp [text_to_video, hw]
    · cases hiv : cfg.backgroundIntervals with
      | nil => simp [text_to_video, hw, hiv]
      | cons t0 tl =>
        simp only [text_to_video, hw, hiv, if_false, if_true]
        cases hrun : (renderLoop imgs.length (t0 :: tl)
            (d / ((splitWords text).length : ℚ)) (splitWords text)
            ⟨0, t0, 0⟩).2 with
        | some e => simp [hrun]
        | none =>
          cases muxOk with
          | false => simp [hrun]
          | true => simp [hrun]

/-- Claim C7 (confirmed): when the font resource does not exist or cannot
be loaded (src/api/app.py raises `FileNotFoundError` up front at lines
44-46; src/app.py's `ImageFont.truetype` raises at line 37), the whole
run fails with that font-load error immediately: zero frames rendered,
and even the speech-synthesis temp file is never created — the failure
can never surface mid-render, whatever the text, images or other inputs
are. -/
theorem c7_font_failure_up_front (cfg : Config) (muxOk : Bool) (d : ℚ)
    (text : String) (imgs : List String) :
    text_to_video cfg false muxOk d text imgs =
      ⟨.error .fileNotFoundError, false, false, 0⟩ := rfl

/-- Claim C9 (confirmed): the pipeline never reads `TIMING_ADJUSTMENT`:
two runs identical except for that constant produce identical results
(frames, durations, assembled output, error behaviour, temp-file fate). -/
theorem c9_timing_adjustment_never_read (cfg : Config) (a1 a2 : ℚ)
    (fontOk muxOk : Bool) (d : ℚ) (text : String) (imgs : List String) :
    text_to_video { cfg with timingAdjustment := a1 } fontOk muxOk d text
        imgs =
      text_to_video { cfg with timingAdjustment := a2 } fontOk muxOk d
        text imgs := rfl

/-- Claim C10 (confirmed): with non-empty text and an empty
background-image list, the run fails at the first word with an
`IndexError` from the unguarded `background_images[current_background_index]`
lookup (index 0, empty list) — zero frames rendered, the temp audio file
already created, and no structured `ImageLoadError` or
`InvalidInputError` involved. -/
theorem c10_empty_images_index_error (muxOk : Bool) (d : ℚ) (text : String)
    (hne : splitWords text ≠ []) :
    text_to_video defaultConfig true muxOk d text [] =
      ⟨.error .indexError, true, false, 0⟩ := by
  obtain ⟨w, ws, hws⟩ : ∃ w ws, splitWords text = w :: ws := by
    cases h : splitWords text with
    | nil => exact absurd h hne
    | cons w ws => exact ⟨w, ws, rfl⟩
  norm_num [text_to_video, hws, defaultConfig, renderLoop, switchStep]

/-- Claim C10 witness: the one-word text "hello" with no images. -/
theorem c10_witness :
    text_to_video defaultConfig true true 2 "hello" [] =
      ⟨.error .indexError, true, false, 0⟩ :=
  c10_empty_images_index_error true 2 "hello" (by decide)

/-- Claim C2 witness: both branches of the characterization at concrete
inputs — a triggering advance from the initial state `⟨0, 10, 0⟩` and a
non-triggering one. -/
theorem c2_amended_witness :
    advance 3 [10, 22, 35] 10 ⟨0, 10, 0⟩ = .ok ⟨(0 + 1) % 3,
      if (0 + 1) % 3 < ([10, 22, 35] : List ℚ).length then
        10 + ([10, 22, 35] : List ℚ).getD ((0 + 1) % 3) 0
      else 10, 0⟩ ∧
    advance 3 [10, 22, 35] 5 ⟨0, 10, 0⟩ = .ok ⟨0, 10, 0 + 5⟩ :=
  ⟨(c2_amended_advance_characterization 3 [10, 22, 35] 10 ⟨0, 10, 0⟩
      (by norm_num)).1 (by norm_num),
   (c2_amended_advance_characterization 3 [10, 22, 35] 5 ⟨0, 10, 0⟩
      (by norm_num)).2 (by norm_num)⟩

end TextToVideo
